import Mathlib

/-!
Verification development for the phonetic-visualizer repository.

The JavaScript modules `src/js/state.js`, `src/js/utils.js`,
`src/js/visualizer-base.js` and the zoom/pan wiring in `src/js/main.js`
are shallowly embedded below.  JavaScript objects are modelled as
association lists from field names to `JVal`; the browser's
animation-frame scheduler, timer queue and DOM id table are modelled as
explicit components of a `World` record, and every side-effecting
function from the source becomes a pure function on `World`.
JavaScript numbers are modelled as rationals (no operation in the
embedded fragment can overflow or lose precision on the inputs the
claims are about); `NaN` is modelled where it can occur (parsing of
dataset attributes) as the `none` case of an `Option ℚ`.
Pixel-level canvas mutation (sizing, clearing, painting) and CSS
display toggles have no observable effect on any claim and are elided;
all control flow, store mutation, scheduling and cancellation are kept
exactly as in the source.
-/

namespace PhoneticViz

/-- An element of a JavaScript array stored in the embedded state.  All
arrays the embedded modules store are flat: colour strings, audio-node
handles, sound buffers. -/
inductive JAtom : Type where
  | null : JAtom
  | undefined : JAtom
  | bool : Bool → JAtom
  | num : ℚ → JAtom
  | str : String → JAtom
  | handle : ℕ → JAtom
  deriving DecidableEq, Repr

/-- A JavaScript runtime value, as far as the embedded modules store
them: `null`, `undefined`, booleans, (finite) numbers, strings, flat
arrays, and opaque external resource handles (audio contexts, audio
nodes). -/
inductive JVal : Type where
  | null : JVal
  | undefined : JVal
  | bool : Bool → JVal
  | num : ℚ → JVal
  | str : String → JVal
  | arr : List JAtom → JVal
  | handle : ℕ → JVal
  deriving DecidableEq, Repr

/-- JavaScript truthiness for the modelled values. -/
def JVal.truthy : JVal → Bool
  | .null => false
  | .undefined => false
  | .bool b => b
  | .num q => q ≠ 0
  | .str s => s ≠ ""
  | .arr _ => true
  | .handle _ => true

/-- A JavaScript object: an association list from field names to values.
Field-name shadowing never occurs in the embedded writes (`set` and
`spread` both deduplicate), so lookup and key list fully describe an
object. -/
abbrev JObj : Type := List (String × JVal)

/-- Lookup in a string-keyed association list (used for object fields,
the state store, the template tables, the registry and the DOM id
table). -/
def assocGet {α : Type} : List (String × α) → String → Option α
  | [], _ => none
  | (k', v) :: rest, k => if k' = k then some v else assocGet rest k

/-- Update in a string-keyed association list: overwrite in place when
the key is present, append otherwise. -/
def assocSet {α : Type} : List (String × α) → String → α → List (String × α)
  | [], k, v => [(k, v)]
  | (k', v') :: rest, k, v =>
    if k' = k then (k, v) :: rest else (k', v') :: assocSet rest k v

/-- Property read `o.k` with JavaScript semantics: absent fields read as
`undefined`. -/
def JObj.getU (o : JObj) (k : String) : JVal :=
  (assocGet o k).getD .undefined

/-- The key set of an object, as the list of its field names. -/
def JObj.keys (o : JObj) : List String :=
  o.map Prod.fst

/-- The object-spread `{...a, ...b}`: key set is the union, `b`'s values
win on common keys.  (The iteration order of keys is not observed by any
claim; lookups and key sets agree with JavaScript.) -/
def JObj.spread : JObj → JObj → JObj
  | [], b => b
  | p :: rest, b =>
    if (assocGet b p.1).isSome then JObj.spread rest b
    else p :: JObj.spread rest b

/-! ## The browser world

State shared by the embedded modules: the keyed state store and template
tables of `state.js`, the registry and template table of
`visualizer-base.js`, the DOM id table (element id ↦ node identity), the
animation-frame scheduler, the timer queue used by the typewriter, an
event trace of scheduler calls, and the console-error log. -/

/-- A scheduler event: a `cancelAnimationFrame` or
`requestAnimationFrame` call, with the handle involved. -/
inductive Ev : Type where
  | cancelFrame : ℚ → Ev
  | requestFrame : ℚ → Ev
  deriving DecidableEq, Repr

/-- The descriptor data `createVisualizer` keeps for one visualizer
(callbacks are passed as explicit function arguments where needed and
are not stored in the world). -/
structure VizDesc : Type where
  name : String
  displayName : String
  icon : Option String
  canvasId : String
  containerId : String
  deriving DecidableEq, Repr

/-- The world state. -/
structure World : Type where
  /-- `visualizationState` from `state.js`. -/
  store : List (String × JObj)
  /-- `visualizerTemplates` from `state.js`. -/
  templates : List (String × JObj)
  /-- `visualizerTemplates` from `visualizer-base.js`. -/
  baseTemplates : List (String × JObj)
  /-- `visualizers` from `visualizer-base.js`. -/
  visualizers : List (String × VizDesc)
  /-- The DOM: element id ↦ node identity. -/
  dom : List (String × ℕ)
  /-- Source of fresh node identities. -/
  domFresh : ℕ
  /-- `createdCanvases` from `visualizer-base.js`. -/
  createdCanvases : List String
  /-- Animation-frame handles scheduled and not yet cancelled or fired. -/
  pending : List ℚ
  /-- Next animation-frame handle (browser handles are positive). -/
  nextRaf : ℚ
  /-- `typewriterTimeoutId` from `utils.js`. -/
  typewriterTimeoutId : Option ℚ
  /-- Timer handles scheduled and not yet cleared or fired. -/
  timeouts : List ℚ
  /-- Next timer handle. -/
  nextTimeout : ℚ
  /-- Trace of scheduler calls, oldest first. -/
  events : List Ev
  /-- Console-error log. -/
  errors : List String
  deriving DecidableEq, Repr

/-- `requestAnimationFrame(cb)`: hand out a fresh handle and record it as
pending. -/
def requestAnimationFrame (w : World) : ℚ × World :=
  (w.nextRaf,
   { w with
       pending := w.pending ++ [w.nextRaf]
       nextRaf := w.nextRaf + 1
       events := w.events ++ [.requestFrame w.nextRaf] })

/-- `cancelAnimationFrame(v)`: drop the handle from the pending set when
`v` is a number (the call ignores other arguments). -/
def cancelAnimationFrame (v : JVal) (w : World) : World :=
  match v with
  | .num id =>
    { w with
        pending := w.pending.erase id
        events := w.events ++ [.cancelFrame id] }
  | _ => w

/-! ## `src/js/state.js` -/

/-- The `spiral` record of the initial `visualizationState`. -/
def spiralDefaultState : JObj :=
  [("points", .null), ("frame", .num 0), ("colors", .null),
   ("animationId", .null)]

/-- The `ripple` record of the initial `visualizationState`. -/
def rippleDefaultState : JObj :=
  [("layers", .null), ("frame", .num 0), ("colors", .null),
   ("animationId", .null), ("centerX", .num 0), ("centerY", .num 0),
   ("ringSpacing", .num 60), ("currentViz", .null)]

/-- The `fractal` record of the initial `visualizationState`. -/
def fractalDefaultState : JObj :=
  [("branches", .null), ("frame", .num 0), ("colors", .null),
   ("animationId", .null), ("centerX", .num 0), ("centerY", .num 0),
   ("season", .str "spring")]

/-- The `constellation` record of the initial `visualizationState`. -/
def constellationDefaultState : JObj :=
  [("stars", .null), ("connections", .null), ("frame", .num 0),
   ("colors", .null), ("animationId", .null), ("centerX", .num 0),
   ("centerY", .num 0), ("twinkleSpeed", .num (1/20))]

/-- The `waveform` record of the initial `visualizationState`. -/
def waveformInitialState : JObj :=
  [("frequencies", .null), ("waveData", .null), ("frame", .num 0),
   ("colors", .null), ("animationId", .null), ("audioContext", .null),
   ("audioNodes", .null), ("isPlaying", .bool false)]

/-- The initial `visualizationState` object from `state.js` (the
`switch`-statement fallbacks in `resetState` repeat these same
literals). -/
def initialVisualizationState : List (String × JObj) :=
  [("spiral", spiralDefaultState), ("ripple", rippleDefaultState),
   ("fractal", fractalDefaultState),
   ("constellation", constellationDefaultState),
   ("waveform", waveformInitialState)]

/-- `registerVisualizerState(visualizerName, stateTemplate)` from
`state.js`: store the template; seed the state record from it when none
exists. -/
def registerVisualizerState (visualizerName : String) (stateTemplate : JObj)
    (w : World) : World :=
  let w1 := { w with templates := assocSet w.templates visualizerName stateTemplate }
  if (assocGet w1.store visualizerName).isSome then w1
  else { w1 with store := assocSet w1.store visualizerName stateTemplate }

/-- `cancelAnimation(visualizationType)` from `state.js`: when the
record exists and its `animationId` is truthy, cancel the frame and null
the field. -/
def cancelAnimation (visualizationType : String) (w : World) : World :=
  match assocGet w.store visualizationType with
  | none => w
  | some rec =>
    let v := rec.getU "animationId"
    if v.truthy then
      let w1 := cancelAnimationFrame v w
      { w1 with
          store := assocSet w1.store visualizationType
            (assocSet rec "animationId" .null) }
    else w

/-- The field overrides the `waveform` branch of `resetState` applies on
top of the template spread (`audioContext` is the preserved handle). -/
def waveformResetOverrides (audioCtx : JVal) : JObj :=
  [("audioContext", audioCtx), ("audioNodes", .arr []),
   ("soundBuffers", .arr []), ("isPlaying", .bool false),
   ("dataArray", .null), ("bufferLength", .null), ("analyzer", .null)]

/-- The literal fallback `waveform` record in `resetState` (used when no
template is registered), with the preserved `audioContext`. -/
def waveformResetFallback (audioCtx : JVal) : JObj :=
  [("frequencies", .null), ("waveData", .null), ("frame", .num 0),
   ("colors", .null), ("animationId", .null), ("audioContext", audioCtx),
   ("audioNodes", .arr []), ("soundBuffers", .arr []),
   ("isPlaying", .bool false), ("dataArray", .null),
   ("bufferLength", .null), ("analyzer", .null)]

/-- `resetState(visualizationType)` from `state.js`.  The `waveform`
branch fires when the current record's `audioNodes` is truthy; it stops
and disconnects the audio nodes (external-device effects, elided),
cancels the animation, preserves `audioContext`, and overrides the
buffer/flag/analyzer fields on top of the template (or uses the literal
fallback record).  Every other key is replaced by a shallow template
copy when a template is registered, by the matching `switch` literal for
the four built-in keys otherwise, and is untouched otherwise. -/
def resetState (visualizationType : String) (w : World) : World :=
  if visualizationType = "waveform" ∧
      (match assocGet w.store "waveform" with
       | some rec => (rec.getU "audioNodes").truthy
       | none => false) = true then
    let w1 := cancelAnimation "waveform" w
    let wfRec := (assocGet w1.store "waveform").getD []
    let audioCtx := wfRec.getU "audioContext"
    match assocGet w1.templates visualizationType with
    | some tmpl =>
      { w1 with
          store := assocSet w1.store visualizationType
            (tmpl.spread (waveformResetOverrides audioCtx)) }
    | none =>
      { w1 with
          store := assocSet w1.store "waveform"
            (waveformResetFallback audioCtx) }
  else
    match assocGet w.templates visualizationType with
    | some tmpl =>
      { w with store := assocSet w.store visualizationType tmpl }
    | none =>
      if visualizationType = "spiral" then
        { w with store := assocSet w.store "spiral" spiralDefaultState }
      else if visualizationType = "ripple" then
        { w with store := assocSet w.store "ripple" rippleDefaultState }
      else if visualizationType = "fractal" then
        { w with store := assocSet w.store "fractal" fractalDefaultState }
      else if visualizationType = "constellation" then
        { w with
            store := assocSet w.store "constellation"
              constellationDefaultState }
      else w

/-- `getState(visualizationType)` from `state.js`. -/
def getState (visualizationType : String) (w : World) : Option JObj :=
  assocGet w.store visualizationType

/-- `updateState(visualizationType, newState)` from `state.js`: shallow
merge into the existing record; no-op when the key is unknown. -/
def updateState (visualizationType : String) (newState : JObj)
    (w : World) : World :=
  match assocGet w.store visualizationType with
  | none => w
  | some rec =>
    { w with
        store := assocSet w.store visualizationType (rec.spread newState) }

/-! ## `src/js/utils.js`: the phonetic map and layer generation -/

/-- The `phoneticMap` table from `src/js/utils.js`. -/
def phoneticList : List (Char × String) :=
  [('a', "ay"), ('b', "bee"), ('c', "see"), ('d', "dee"), ('e', "ee"),
   ('f', "ef"), ('g', "jee"), ('h', "aych"), ('i', "eye"), ('j', "jay"),
   ('k', "kay"), ('l', "el"), ('m', "em"), ('n', "en"), ('o', "oh"),
   ('p', "pee"), ('q', "cue"), ('r', "ar"), ('s', "ess"), ('t', "tee"),
   ('u', "you"), ('v', "vee"), ('w', "doubleyou"), ('x', "ex"),
   ('y', "why"), ('z', "zee")]

/-- `phoneticMap[c]`. -/
def phoneticMap (c : Char) : Option String :=
  phoneticList.lookup c

/-- `spellOutArray(chars)` from `src/js/utils.js`: each character maps to
the character list of its phonetic name (lower-cased lookup), and a
character with no mapping passes through as itself
(`phoneticMap[c.toLowerCase()] || c`, then `split('')`). -/
def spellOutArray (chars : List Char) : List Char :=
  chars.flatMap (fun c =>
    match phoneticMap c.toLower with
    | some s => s.toList
    | none => [c])

/-- The loop body of `generatePhoneticLayers`: from the current layer,
produce up to `n` further layers, stopping early when an expansion is
empty (`if (!nextLayer.length) break`). -/
def genLayersAux (cur : List Char) : ℕ → List (List Char)
  | 0 => []
  | n + 1 =>
    let nextLayer := spellOutArray cur
    if nextLayer.isEmpty then []
    else nextLayer :: genLayersAux nextLayer n

/-- `generatePhoneticLayers(word, maxLayers)` from `src/js/utils.js`:
layer 0 is `word.split('')`; the loop `for (i = 1; i <= maxLayers; i++)`
pushes `spellOutArray` of the previous layer, breaking when it is empty. -/
def generatePhoneticLayers (word : String) (maxLayers : ℕ := 3) :
    List (List Char) :=
  word.toList :: genLayersAux word.toList maxLayers

/-- `getFinalLayerText(layers)` from `src/js/utils.js`. -/
def getFinalLayerText (layers : List (List Char)) : String :=
  match layers.getLast? with
  | none => ""
  | some finalLayer => String.mk finalLayer

/-! ## `src/js/utils.js`: `getCanvasTransform` -/

/-- A stored `dataset` attribute on a canvas.  The only writers
(`main.js`'s zoom/pan handlers) assign JavaScript numbers, which the DOM
stringifies; reading parses the string back with `parseFloat`.  A finite
number round-trips exactly and its string is non-empty (so truthy); `NaN`
stringifies to the truthy string `"NaN"`, which parses back to `NaN`.
We therefore model an attribute as `Option ℚ` (`none` = `NaN`) and an
absent attribute as the outer `none`. -/
abbrev DataAttr : Type := Option (Option ℚ)

/-- The transform-relevant part of a canvas element: its three dataset
attributes. -/
structure CanvasData : Type where
  scaleAttr : DataAttr
  offsetXAttr : DataAttr
  offsetYAttr : DataAttr
  deriving DecidableEq, Repr

/-- The result record of `getCanvasTransform`. -/
structure Transform : Type where
  scale : ℚ
  offsetX : ℚ
  offsetY : ℚ
  deriving DecidableEq, Repr

/-- One field of `getCanvasTransform`: the ternary
`canvas.dataset.f ? parseFloat(canvas.dataset.f) : dflt` followed by the
`isNaN` guard. -/
def readDataField (attr : DataAttr) (dflt : ℚ) : ℚ :=
  match attr with
  | none => dflt
  | some parsed =>
    match parsed with
    | none => dflt
    | some q => q

/-- `getCanvasTransform(canvasId)` from `src/js/utils.js`: the element
lookup is modelled by the `Option CanvasData` argument; a missing canvas
yields the default transform after a warning. -/
def getCanvasTransform (canvas : Option CanvasData) : Transform :=
  match canvas with
  | none => { scale := 1, offsetX := 0, offsetY := 0 }
  | some c =>
    { scale := readDataField c.scaleAttr 1
      offsetX := readDataField c.offsetXAttr 0
      offsetY := readDataField c.offsetYAttr 0 }

/-! ## `src/js/main.js`: the wheel-zoom target computation -/

/-- The target transform computed by the `wheel` listener installed by
`setupCanvasZoomPan` in `src/js/main.js` (lines 205–235): zoom delta
`±0.1` by wheel direction, scale clamped by
`Math.max(minScale, Math.min(maxScale, scale * (1 + delta)))` with
`minScale = 0.2`, `maxScale = 5`, and offsets recomputed so the world
point under the mouse stays fixed. -/
def wheelZoomTarget (scale offsetX offsetY mouseX mouseY : ℚ)
    (deltaYNeg : Bool) : Transform :=
  let zoomIntensity : ℚ := 1/10
  let delta := if deltaYNeg then zoomIntensity else -zoomIntensity
  let minScale : ℚ := 1/5
  let maxScale : ℚ := 5
  let targetScale := max minScale (min maxScale (scale * (1 + delta)))
  let worldX := (mouseX - offsetX) / scale
  let worldY := (mouseY - offsetY) / scale
  { scale := targetScale
    offsetX := mouseX - worldX * targetScale
    offsetY := mouseY - worldY * targetScale }

/-! ## `src/js/utils.js`: `animateTypewriter`

Only the timer lifecycle is modelled (text measurement, font scaling and
the revealed text itself paint the page and are elided): any ongoing
typewriter timeout is cleared, and for non-empty text the first
`typeNextChar` call schedules a fresh timeout and records its id. -/

/-- `animateTypewriter(text, duration)` from `src/js/utils.js`. -/
def animateTypewriter (text : String) (w : World) : World :=
  let w1 :=
    match w.typewriterTimeoutId with
    | some id =>
      { w with timeouts := w.timeouts.erase id, typewriterTimeoutId := none }
    | none => w
  if text = "" then w1
  else
    { w1 with
        typewriterTimeoutId := some w1.nextTimeout
        timeouts := w1.timeouts ++ [w1.nextTimeout]
        nextTimeout := w1.nextTimeout + 1 }

/-! ## `src/js/visualizer-base.js` -/

/-- `createOrGetContainer(containerId)`: return the existing element, or
create a fresh hidden container (its tree position does not affect any
claim and is elided).  The result is the element's node identity. -/
def createOrGetContainer (containerId : String) (w : World) : ℕ × World :=
  match assocGet w.dom containerId with
  | some e => (e, w)
  | none =>
    (w.domFresh,
     { w with
         dom := assocSet w.dom containerId w.domFresh
         domFresh := w.domFresh + 1 })

/-- `createOrGetCanvas(canvasId, container)`: return the existing
element, or create a fresh hidden canvas inside the container and track
its id in `createdCanvases`. -/
def createOrGetCanvas (canvasId : String) (w : World) : ℕ × World :=
  match assocGet w.dom canvasId with
  | some e => (e, w)
  | none =>
    (w.domFresh,
     { w with
         dom := assocSet w.dom canvasId w.domFresh
         domFresh := w.domFresh + 1
         createdCanvases := w.createdCanvases ++ [canvasId] })

/-- The configuration record destructured by `createVisualizer`
(callbacks are threaded separately; `animationConfig` is split into its
two used fields). -/
structure VizOptions : Type where
  displayName : String
  icon : Option String
  canvasId : Option String
  containerId : Option String
  stateTemplate : JObj
  layerDepth : Option ℕ
  duration : Option ℚ
  deriving DecidableEq, Repr

/-- The destructuring defaults of `createVisualizer`:
`canvasId = ` `` `${name}-canvas` ``. -/
def defaultCanvasId (name : String) (o : Option String) : String :=
  o.getD (name ++ "-canvas")

/-- The destructuring defaults of `createVisualizer`:
`containerId = ` `` `${name}Container` ``. -/
def defaultContainerId (name : String) (o : Option String) : String :=
  o.getD (name ++ "Container")

/-- `createVisualizer(config)` from `src/js/visualizer-base.js`: apply
the id defaults, materialize container and canvas, and build the
descriptor object. -/
def createVisualizer (name : String) (opts : VizOptions) (w : World) :
    VizDesc × World :=
  let canvasId := defaultCanvasId name opts.canvasId
  let containerId := defaultContainerId name opts.containerId
  let (_, w1) := createOrGetContainer containerId w
  let (_, w2) := createOrGetCanvas canvasId w1
  ({ name := name, displayName := opts.displayName, icon := opts.icon,
     canvasId := canvasId, containerId := containerId }, w2)

/-- `registerVisualizer(name, options)` from `src/js/visualizer-base.js`:
create (or reuse) the DOM pair, overwrite the registry entry, register
the state template with the store, and record the template in the
module's own table. -/
def registerVisualizer (name : String) (opts : VizOptions) (w : World) :
    World :=
  let (desc, w1) := createVisualizer name opts w
  let w2 := { w1 with visualizers := assocSet w1.visualizers name desc }
  let w3 := registerVisualizerState name opts.stateTemplate w2
  { w3 with baseTemplates := assocSet w3.baseTemplates name opts.stateTemplate }

/-- JavaScript `x || d` on an optionally-present number
(`animationConfig.layerDepth || 3`): both `undefined` and `0` are falsy. -/
def jsOrNat (v : Option ℕ) (d : ℕ) : ℕ :=
  match v with
  | some n => if n = 0 then d else n
  | none => d

/-- A plugin render callback `renderFunction(word, canvas, ctx, layers)`:
it may mutate the world (store writes, frame scheduling) and may throw;
a throw is the `some` error outcome, alongside the world as mutated up
to the throw. -/
abbrev Plugin : Type := String → List (List Char) → World → World × Option String

/-- A plugin redraw callback `redrawFunction(state, canvas, ctx)`. -/
abbrev RedrawFn : Type := JObj → World → World × Option String

/-- The `try { renderFunction(...) } catch (error) { console.error }`
block of `render`: a thrown error is appended to the console-error log
and never escapes. -/
def guardedCall (rf : Plugin) (word : String) (layers : List (List Char))
    (w : World) : World × Option String :=
  match rf word layers w with
  | (w4, some err) => ({ w4 with errors := w4.errors ++ [err] }, none)
  | (w4, none) => (w4, none)

/-- The `try { redrawFunction(...) } catch (error) { console.error }`
block of `redraw`. -/
def guardedRedraw (rdf : RedrawFn) (state : JObj) (w : World) :
    World × Option String :=
  match rdf state w with
  | (w1, some err) => ({ w1 with errors := w1.errors ++ [err] }, none)
  | (w1, none) => (w1, none)

/-- The `render(word)` method returned by `createVisualizer`.  Canvas
sizing and clearing are elided; guards, layer generation, typewriter
start, cancellation, state reset and the guarded plugin call follow the
source order exactly.  The second component is what `render` itself
throws to its caller: the `try`/`catch` confines the plugin's throw. -/
def render (name containerId canvasId : String) (layerDepth : Option ℕ)
    (renderFunction : Plugin) (word : String) (w : World) :
    World × Option String :=
  if word = "" then (w, none)
  else
    match assocGet w.dom containerId with
    | none => ({ w with errors := w.errors ++ ["container not found"] }, none)
    | some _ =>
      match assocGet w.dom canvasId with
      | none => ({ w with errors := w.errors ++ ["canvas not found"] }, none)
      | some _ =>
        let layers := generatePhoneticLayers word (jsOrNat layerDepth 3)
        let finalText := getFinalLayerText layers
        let w1 := animateTypewriter finalText w
        let w2 := cancelAnimation name w1
        let w3 := resetState name w2
        guardedCall renderFunction word layers w3

/-- The `redraw()` method returned by `createVisualizer`: fetch the
state (abort with a logged error when absent), re-fetch the canvas
(abort when absent; the resize check is elided), and call the plugin's
redraw callback under the same `try`/`catch`. -/
def redraw (name canvasId : String) (redrawFunction : RedrawFn)
    (w : World) : World × Option String :=
  match getState name w with
  | none => ({ w with errors := w.errors ++ ["no state found"] }, none)
  | some state =>
    match assocGet w.dom canvasId with
    | none => ({ w with errors := w.errors ++ ["canvas not found"] }, none)
    | some _ => guardedRedraw redrawFunction state w

/-! ## `src/js/visualizers/waveform.js`: the registered template -/

/-- `waveformStateTemplate` from `src/js/visualizers/waveform.js`
(lines 188–206), the template registered for the `waveform` key. -/
def waveformStateTemplate : JObj :=
  [("layers", .null), ("word", .str ""), ("audioContext", .null),
   ("analyzer", .null), ("dataArray", .null), ("bufferLength", .num 0),
   ("colors", .arr [.str "#ff6b6b", .str "#4ecdc4", .str "#ffe66d",
                    .str "#a78bfa"]),
   ("soundBuffers", .arr []), ("audioNodes", .arr []),
   ("animationStartTime", .num 0), ("animationDuration", .num 8000),
   ("isPlaying", .bool false), ("dualTrigger", .bool false),
   ("lastFrameTime", .num 0), ("deltaTime", .num 0),
   ("animationId", .null)]

/-- A canonical plugin that schedules exactly one animation frame and
stores its handle in the key's `animationId`, the loop-starting shape
`renderCallback`s take (cf. §5 of the spec and e.g.
`renderConstellationSpecific`). -/
def schedulingPlugin (name : String) : Plugin := fun _word _layers w =>
  let (id, w1) := requestAnimationFrame w
  (updateState name [("animationId", .num id)] w1, none)

/-- A plugin that throws `err` without mutating anything. -/
def throwingPlugin (err : String) : Plugin := fun _word _layers w =>
  (w, some err)

/-- A redraw callback that throws `err` without mutating anything. -/
def throwingRedraw (err : String) : RedrawFn := fun _state w =>
  (w, some err)

/-- The world right after the modules load: the literal
`visualizationState`, empty template tables, registry and DOM, no
pending handles (browser handle counters start at 1). -/
def emptyWorld : World :=
  { store := initialVisualizationState
    templates := []
    baseTemplates := []
    visualizers := []
    dom := []
    domFresh := 0
    createdCanvases := []
    pending := []
    nextRaf := 1
    typewriterTimeoutId := none
    timeouts := []
    nextTimeout := 1
    events := []
    errors := [] }

/-- The options object of the `registerVisualizer('waveform', {...})`
call in `src/js/visualizers/waveform.js` (lines 606–618). -/
def waveformOptions : VizOptions :=
  { displayName := "Waveform Audio"
    icon := none
    canvasId := some "waveform"
    containerId := some "waveformContainer"
    stateTemplate := waveformStateTemplate
    layerDepth := some 3
    duration := some 8000 }

/-- The options object of the `registerVisualizer('spiral', {...})` call
in the spiral module (its `stateTemplate` literal equals
`spiralDefaultState`). -/
def spiralOptions : VizOptions :=
  { displayName := "Spiral Path"
    icon := none
    canvasId := some "spiral"
    containerId := some "spiralContainer"
    stateTemplate := spiralDefaultState
    layerDepth := some 3
    duration := some 3000 }

/-! ## Association-list and object lemmas -/

theorem assocGet_assocSet {α : Type} (o : List (String × α)) (k : String)
    (v : α) (k' : String) :
    assocGet (assocSet o k v) k' = if k = k' then some v else assocGet o k' := by
  induction o with
  | nil =>
    by_cases hk : k = k' <;> simp [assocSet, assocGet, hk]
  | cons p o ih =>
    obtain ⟨k0, v0⟩ := p
    by_cases h0 : k0 = k
    · subst h0
      by_cases hk : k0 = k' <;> simp [assocSet, assocGet, hk]
    · by_cases hk : k0 = k'
      · subst hk
        have : k ≠ k0 := fun h => h0 h.symm
        simp [assocSet, assocGet, h0, this]
      · simp [assocSet, assocGet, h0, hk, ih]

/-- Spread lookup semantics: the right operand wins. -/
theorem JObj.get_spread (a b : JObj) (k : String) :
    assocGet (a.spread b) k = ((assocGet b k).or (assocGet a k)) := by
  induction a with
  | nil =>
    cases hb : assocGet b k <;> simp [JObj.spread, assocGet, Option.or, hb]
  | cons p a ih =>
    obtain ⟨k', v⟩ := p
    by_cases hk : k' = k
    · subst hk
      cases hb : assocGet b k' with
      | some w => simp [JObj.spread, assocGet, hb, ih, Option.or]
      | none => simp [JObj.spread, assocGet, hb, Option.or]
    · by_cases hb : (assocGet b k').isSome <;>
        simp [JObj.spread, assocGet, hb, hk, ih]

theorem JObj.mem_keys_iff_get (o : JObj) (k : String) :
    k ∈ o.keys ↔ (assocGet o k).isSome := by
  induction o with
  | nil => simp [JObj.keys, assocGet]
  | cons p o ih =>
    obtain ⟨k', v⟩ := p
    by_cases hk : k' = k
    · subst hk; simp [JObj.keys, assocGet]
    · simp only [JObj.keys, List.map_cons, List.mem_cons] at ih ⊢
      simp [assocGet, hk, Ne.symm hk, ih]

/-- Spread key-set semantics: the union of the two key sets. -/
theorem JObj.keys_spread (a b : JObj) (k : String) :
    k ∈ (a.spread b).keys ↔ k ∈ a.keys ∨ k ∈ b.keys := by
  rw [JObj.mem_keys_iff_get, JObj.mem_keys_iff_get, JObj.mem_keys_iff_get,
    JObj.get_spread]
  cases hb : assocGet b k <;> cases ha : assocGet a k <;> simp [Option.or]

/-! ## C4: wheel-zoom scale clamp and pivot invariant -/

/-- C4: for every wheel-zoom event at `(mouseX, mouseY)` on a transform
`(scale, offsetX, offsetY)` with `0 < scale`, the target scale is the
old scale times `1 ± 0.1` clamped to `[0.2, 5]`, the target offsets are
`mouse - worldPoint * newScale` for `worldPoint = (mouse - offset) / scale`,
and the world point initially under the cursor maps back exactly to the
same screen point (the arithmetic is exact over `ℚ`, so no epsilon is
needed). -/
theorem wheelZoom_pivot_invariant (scale offsetX offsetY mouseX mouseY : ℚ)
    (dir : Bool) (hscale : 0 < scale) :
    (wheelZoomTarget scale offsetX offsetY mouseX mouseY dir).scale =
      max (1/5) (min 5 (scale * (1 + (if dir then (1:ℚ)/10 else -(1/10))))) ∧
    (wheelZoomTarget scale offsetX offsetY mouseX mouseY dir).offsetX =
      mouseX - ((mouseX - offsetX) / scale) *
        (wheelZoomTarget scale offsetX offsetY mouseX mouseY dir).scale ∧
    (wheelZoomTarget scale offsetX offsetY mouseX mouseY dir).offsetY =
      mouseY - ((mouseY - offsetY) / scale) *
        (wheelZoomTarget scale offsetX offsetY mouseX mouseY dir).scale ∧
    ((mouseX - offsetX) / scale) *
        (wheelZoomTarget scale offsetX offsetY mouseX mouseY dir).scale +
      (wheelZoomTarget scale offsetX offsetY mouseX mouseY dir).offsetX =
        mouseX ∧
    ((mouseY - offsetY) / scale) *
        (wheelZoomTarget scale offsetX offsetY mouseX mouseY dir).scale +
      (wheelZoomTarget scale offsetX offsetY mouseX mouseY dir).offsetY =
        mouseY := by
  refine ⟨rfl, rfl, rfl, ?_, ?_⟩ <;> simp [wheelZoomTarget]

/-- Witness for C4: the spec's scenario, `scale = 1`, `offset = (0,0)`,
zoom-in at `(100, 100)`: the new scale is `1.1` and the pivot equations
hold there. -/
theorem wheelZoom_pivot_invariant_witness :
    (0:ℚ) < 1 ∧
    ((wheelZoomTarget 1 0 0 100 100 true).scale =
        max (1/5) (min 5 (1 * (1 + (if true then (1:ℚ)/10 else -(1/10))))) ∧
      (wheelZoomTarget 1 0 0 100 100 true).offsetX =
        100 - ((100 - 0) / 1) * (wheelZoomTarget 1 0 0 100 100 true).scale ∧
      (wheelZoomTarget 1 0 0 100 100 true).offsetY =
        100 - ((100 - 0) / 1) * (wheelZoomTarget 1 0 0 100 100 true).scale ∧
      ((100 - 0) / 1) * (wheelZoomTarget 1 0 0 100 100 true).scale +
        (wheelZoomTarget 1 0 0 100 100 true).offsetX = 100 ∧
      ((100 - 0) / 1) * (wheelZoomTarget 1 0 0 100 100 true).scale +
        (wheelZoomTarget 1 0 0 100 100 true).offsetY = 100) :=
  ⟨by norm_num, wheelZoom_pivot_invariant 1 0 0 100 100 true (by norm_num)⟩

/-! ## C5: `getCanvasTransform` NaN-safety and round-trip -/

/-- C5: `getCanvasTransform` never yields NaN: a missing surface yields
the default transform `{1, 0, 0}`; on an existing surface each field is
the stored finite value when one was written, and falls back to its
default (`1` for scale, `0` for the offsets) when the attribute is
absent or parses to NaN (`some none` in the model). -/
theorem getCanvasTransform_safe :
    getCanvasTransform none = { scale := 1, offsetX := 0, offsetY := 0 } ∧
    ∀ c : CanvasData,
      (getCanvasTransform (some c)).scale =
        (match c.scaleAttr with
         | some (some q) => q
         | _ => 1) ∧
      (getCanvasTransform (some c)).offsetX =
        (match c.offsetXAttr with
         | some (some q) => q
         | _ => 0) ∧
      (getCanvasTransform (some c)).offsetY =
        (match c.offsetYAttr with
         | some (some q) => q
         | _ => 0) := by
  refine ⟨rfl, fun c => ⟨?_, ?_, ?_⟩⟩ <;>
    · obtain ⟨s, x, y⟩ := c
      simp only [getCanvasTransform, readDataField]
      rcases s with _ | _ | _ <;> rcases x with _ | _ | _ <;>
        rcases y with _ | _ | _ <;> rfl

/-! ## Layer-generation lemmas (C3, C9) -/

theorem lookup_sat {α β : Type} [BEq α] (P : β → Prop) (l : List (α × β))
    (hall : ∀ p ∈ l, P p.2) (a : α) (b : β) (h : l.lookup a = some b) :
    P b := by
  induction l with
  | nil => simp [List.lookup] at h
  | cons p es ih =>
    obtain ⟨k, v⟩ := p
    by_cases hak : a == k
    · simp [List.lookup, hak] at h
      exact h ▸ hall (k, v) (List.mem_cons_self _ _)
    · simp only [List.lookup, hak] at h
      exact ih (fun q hq => hall q (List.mem_cons_of_mem _ hq)) h

/-- Every phonetic name in the table is non-empty. -/
theorem phoneticMap_ne_empty (c : Char) (s : String)
    (h : phoneticMap c = some s) : s.toList ≠ [] := by
  refine lookup_sat (fun t => t.toList ≠ []) phoneticList ?_ c s h
  decide

/-- The per-character expansion in `spellOutArray` is never empty. -/
theorem spellOut_char_ne_nil (c : Char) :
    (match phoneticMap c.toLower with
     | some s => s.toList
     | none => [c]) ≠ [] := by
  cases h : phoneticMap c.toLower with
  | some s => simpa using phoneticMap_ne_empty _ _ h
  | none => simp

/-- `spellOutArray` maps non-empty inputs to non-empty outputs: a
character with no phonetic mapping passes through as itself. -/
theorem spellOutArray_ne_nil (chars : List Char) (h : chars ≠ []) :
    spellOutArray chars ≠ [] := by
  cases chars with
  | nil => exact absurd rfl h
  | cons c rest =>
    simp only [spellOutArray, List.flatMap_cons]
    intro hcontra
    rcases List.append_eq_nil.mp hcontra with ⟨h1, _⟩
    exact spellOut_char_ne_nil c h1

theorem genLayersAux_length_le (cur : List Char) (n : ℕ) :
    (genLayersAux cur n).length ≤ n := by
  induction n generalizing cur with
  | zero => simp [genLayersAux]
  | succ m ih =>
    simp only [genLayersAux]
    by_cases h : (spellOutArray cur).isEmpty
    · simp [h]
    · simpa [h] using Nat.succ_le_succ (ih (spellOutArray cur))

/-- When the current layer is non-empty no expansion is ever empty, so
the loop never breaks early and produces exactly `n` further layers,
all non-empty. -/
theorem genLayersAux_full (cur : List Char) (hcur : cur ≠ []) (n : ℕ) :
    (genLayersAux cur n).length = n ∧
      ∀ l ∈ genLayersAux cur n, l ≠ [] := by
  induction n generalizing cur with
  | zero => simp [genLayersAux]
  | succ m ih =>
    have hnext : spellOutArray cur ≠ [] := spellOutArray_ne_nil cur hcur
    have hne : ¬ (spellOutArray cur).isEmpty := by
      simpa [List.isEmpty_iff] using hnext
    obtain ⟨hlen, hmem⟩ := ih (spellOutArray cur) hnext
    refine ⟨?_, ?_⟩
    · simp [genLayersAux, hne, hlen]
    · intro l hl
      have hl' : l = spellOutArray cur ∨ l ∈ genLayersAux (spellOutArray cur) m := by
        simpa [genLayersAux, hne] using hl
      rcases hl' with h | h
      · rw [h]; exact hnext
      · exact hmem l h

/-- The chain property: each entry of `genLayersAux cur n`, read after
`cur`, is the `spellOutArray` of its predecessor. -/
theorem genLayersAux_chain (cur : List Char) (n : ℕ) :
    List.Chain' (fun a b => b = spellOutArray a) (cur :: genLayersAux cur n) := by
  induction n generalizing cur with
  | zero => simp [genLayersAux]
  | succ m ih =>
    simp only [genLayersAux]
    by_cases h : (spellOutArray cur).isEmpty
    · simp [h]
    · simp only [h, if_false]
      exact List.Chain'.cons rfl (ih (spellOutArray cur))

/-- The early-stop property: when fewer than `n` further layers come
back, the expansion of the last produced layer was empty. -/
theorem genLayersAux_early_stop (cur : List Char) (n : ℕ)
    (h : (genLayersAux cur n).length < n) :
    ∃ last, (cur :: genLayersAux cur n).getLast? = some last ∧
      spellOutArray last = [] := by
  induction n generalizing cur with
  | zero => simp at h
  | succ m ih =>
    by_cases he : (spellOutArray cur).isEmpty
    · refine ⟨cur, ?_, by simpa [List.isEmpty_iff] using he⟩
      simp [genLayersAux, he]
    · have hunf : genLayersAux cur (m + 1) =
          spellOutArray cur :: genLayersAux (spellOutArray cur) m := by
        simp [genLayersAux, he]
      rw [hunf] at h
      simp only [List.length_cons] at h
      obtain ⟨last, hlast, hempty⟩ := ih (spellOutArray cur) (by omega)
      refine ⟨last, ?_, hempty⟩
      rw [hunf, List.getLast?_cons_cons]
      exact hlast

/-- C9 (implicit claim): for every non-empty character array,
`spellOutArray` returns a non-empty array, so for every non-empty word
and every depth `d`, `generatePhoneticLayers(word, d)` never takes the
early-stop branch: it returns exactly `d + 1` layers, each non-empty. -/
theorem generatePhoneticLayers_full :
    (∀ chars : List Char, chars ≠ [] → spellOutArray chars ≠ []) ∧
    ∀ (word : String) (d : ℕ), word ≠ "" →
      (generatePhoneticLayers word d).length = d + 1 ∧
      ∀ l ∈ generatePhoneticLayers word d, l ≠ [] := by
  refine ⟨spellOutArray_ne_nil, fun word d hword => ?_⟩
  have hlist : word.toList ≠ [] := by
    intro hnil
    apply hword
    have := congrArg String.mk hnil
    simpa using this
  obtain ⟨hlen, hmem⟩ := genLayersAux_full word.toList hlist d
  refine ⟨by simp only [generatePhoneticLayers, List.length_cons]; omega, ?_⟩
  intro l hl
  simp only [generatePhoneticLayers, List.mem_cons] at hl
  rcases hl with rfl | hl
  · exact hlist
  · exact hmem l hl

/-- Witness for C9: `"cat"` at depth 3 yields four non-empty layers. -/
theorem generatePhoneticLayers_full_witness :
    ("c" ≠ "" ∧ (generatePhoneticLayers "c" 1).length = 2) ∧
      [('c' : Char)] ≠ [] ∧ spellOutArray [('c' : Char)] ≠ [] := by
  refine ⟨⟨by decide, ((generatePhoneticLayers_full.2 "c" 1 (by decide)).1)⟩,
    by decide, generatePhoneticLayers_full.1 [('c' : Char)] (by decide)⟩

/-- C3 counterexample: the claim bounds the number of layers by the
depth `d`, but for word `"cat"` and depth 3 the code returns 4 layers
(layer 0 plus one spell-out layer per loop iteration), and `4 ≤ 3` is
false. -/
theorem generatePhoneticLayers_count_cex :
    (generatePhoneticLayers "cat" 3).length = 4 ∧
      ¬ ((generatePhoneticLayers "cat" 3).length ≤ 3) := by
  constructor <;> decide

/-- C3 as amended: layer 0 is the word's characters, each subsequent
layer is the phonetic spell-out of the previous layer, the number of
layers is bounded by `d + 1` (layer 0 plus at most `d` spell-out
layers), generation stops early exactly when an expansion comes back
empty, and for `"cat"` at depth 3 layer 1 is the characters of
`"seeaytee"` and layer 2 is the spell-out of layer 1. -/
theorem generatePhoneticLayers_spec (word : String) (d : ℕ) :
    (generatePhoneticLayers word d).head? = some word.toList ∧
    List.Chain' (fun a b => b = spellOutArray a)
      (generatePhoneticLayers word d) ∧
    (generatePhoneticLayers word d).length ≤ d + 1 ∧
    ((generatePhoneticLayers word d).length < d + 1 →
      ∃ last, (generatePhoneticLayers word d).getLast? = some last ∧
        spellOutArray last = []) ∧
    (generatePhoneticLayers "cat" 3).get? 1 = some "seeaytee".toList ∧
    (generatePhoneticLayers "cat" 3).get? 2 =
      some (spellOutArray "seeaytee".toList) := by
  refine ⟨rfl, genLayersAux_chain word.toList d, ?_, ?_, by decide, by decide⟩
  · simpa [generatePhoneticLayers] using
      Nat.succ_le_succ (genLayersAux_length_le word.toList d)
  · intro hlt
    simp only [generatePhoneticLayers, List.length_cons,
      Nat.succ_lt_succ_iff] at hlt
    exact genLayersAux_early_stop word.toList d hlt

/-- Witness for C3's amended theorem (its early-stop conjunct is an
implication): instantiated at the empty word and depth 2, where the
early stop fires and the spell-out of the last layer is empty. -/
theorem generatePhoneticLayers_spec_witness :
    ((generatePhoneticLayers "" 2).head? = some "".toList ∧
      List.Chain' (fun a b => b = spellOutArray a)
        (generatePhoneticLayers "" 2) ∧
      (generatePhoneticLayers "" 2).length ≤ 2 + 1 ∧
      ((generatePhoneticLayers "" 2).length < 2 + 1 →
        ∃ last, (generatePhoneticLayers "" 2).getLast? = some last ∧
          spellOutArray last = []) ∧
      (generatePhoneticLayers "cat" 3).get? 1 = some "seeaytee".toList ∧
      (generatePhoneticLayers "cat" 3).get? 2 =
        some (spellOutArray "seeaytee".toList)) ∧
    (generatePhoneticLayers "" 2).length < 2 + 1 :=
  ⟨generatePhoneticLayers_spec "" 2, by decide⟩

/-! ## State-store lemmas (C1, C2, C7, C10) -/

theorem cancelAnimationFrame_store (v : JVal) (w : World) :
    (cancelAnimationFrame v w).store = w.store := by
  cases v <;> rfl

theorem cancelAnimationFrame_templates (v : JVal) (w : World) :
    (cancelAnimationFrame v w).templates = w.templates := by
  cases v <;> rfl

theorem cancelAnimation_templates (t : String) (w : World) :
    (cancelAnimation t w).templates = w.templates := by
  unfold cancelAnimation
  cases assocGet w.store t with
  | none => rfl
  | some rcrd =>
    by_cases h : (rcrd.getU "animationId").truthy <;>
      simp [h, cancelAnimationFrame_templates]

/-- `cancelAnimation` on an existing record leaves every field but
`animationId` unchanged. -/
theorem cancelAnimation_record (t : String) (w : World) (rcrd : JObj)
    (h : assocGet w.store t = some rcrd) :
    ∃ rcrd', assocGet (cancelAnimation t w).store t = some rcrd' ∧
      ∀ k, k ≠ "animationId" → assocGet rcrd' k = assocGet rcrd k := by
  unfold cancelAnimation
  rw [h]
  by_cases htr : (rcrd.getU "animationId").truthy
  · refine ⟨assocSet rcrd "animationId" .null, ?_, ?_⟩
    · simp [htr, cancelAnimationFrame_store, assocGet_assocSet]
    · intro k hk
      rw [assocGet_assocSet, if_neg (fun h => hk h.symm)]
  · exact ⟨rcrd, by simp [htr, h], fun _ _ => rfl⟩

theorem waveformStateTemplate_keys :
    waveformStateTemplate.keys =
      ["layers", "word", "audioContext", "analyzer", "dataArray",
       "bufferLength", "colors", "soundBuffers", "audioNodes",
       "animationStartTime", "animationDuration", "isPlaying",
       "dualTrigger", "lastFrameTime", "deltaTime", "animationId"] := rfl

theorem waveformResetOverrides_keys (x : JVal) :
    (waveformResetOverrides x).keys =
      ["audioContext", "audioNodes", "soundBuffers", "isPlaying",
       "dataArray", "bufferLength", "analyzer"] := rfl

/-! ## C1: `resetState` template fidelity -/

/-- C1 counterexample: after registration, a first reset (which seeds
`{...waveformStateTemplate}`, making `audioNodes` the truthy `[]`) and a
second reset, the `waveform` record's `bufferLength` is `null`, whereas
the registered template's default for that field is `0` — so not every
non-preserved field goes back to its template default. -/
theorem resetState_bufferLength_cex :
    ((assocGet (resetState "waveform" (resetState "waveform"
        (registerVisualizer "waveform" waveformOptions emptyWorld))).store
        "waveform").getD []).getU "bufferLength" = JVal.null ∧
    waveformStateTemplate.getU "bufferLength" = JVal.num 0 ∧
    JVal.null ≠ JVal.num 0 := by
  refine ⟨?_, rfl, by decide⟩
  rfl

/-- C1 as amended: for every registered non-`waveform` key, `resetState`
replaces the record with a fresh shallow copy of the registered template
(so the key set equals the template's and every field has its template
default); for the `waveform` key with its registered template and an
active audio-resource record, the reset preserves the record's
`audioContext` handle, keeps the key set exactly equal to the
template's, and returns every other field to its template default —
except `bufferLength`, which the reset hardcodes to `null` although the
template's default is `0`. -/
theorem resetState_template_fidelity :
    (∀ (key : String) (tmpl : JObj) (w : World), key ≠ "waveform" →
       assocGet w.templates key = some tmpl →
       assocGet (resetState key w).store key = some tmpl) ∧
    (∀ (rcrd : JObj) (w : World),
       assocGet w.templates "waveform" = some waveformStateTemplate →
       assocGet w.store "waveform" = some rcrd →
       (rcrd.getU "audioNodes").truthy →
       ∃ res, assocGet (resetState "waveform" w).store "waveform" = some res ∧
         (∀ k, k ∈ res.keys ↔ k ∈ waveformStateTemplate.keys) ∧
         res.getU "audioContext" = rcrd.getU "audioContext" ∧
         (∀ k ∈ waveformStateTemplate.keys,
            k ≠ "audioContext" → k ≠ "bufferLength" →
            assocGet res k = assocGet waveformStateTemplate k) ∧
         res.getU "bufferLength" = JVal.null) := by
  constructor
  · intro key tmpl w hkey htmpl
    simp only [resetState, hkey, false_and, if_false, htmpl]
    rw [assocGet_assocSet]
    simp
  · intro rcrd w htmpl hstore htruthy
    obtain ⟨rcrd', hrec', hfields⟩ :=
      cancelAnimation_record "waveform" w rcrd hstore
    have haudio : rcrd'.getU "audioContext" = rcrd.getU "audioContext" := by
      unfold JObj.getU
      rw [hfields "audioContext" (by decide)]
    have hguard : ("waveform" = "waveform" ∧
        (match assocGet w.store "waveform" with
         | some r => (r.getU "audioNodes").truthy
         | none => false) = true) := by
      refine ⟨rfl, ?_⟩
      rw [hstore]
      exact htruthy
    rw [resetState, if_pos hguard]
    simp only [cancelAnimation_templates, htmpl, hrec', Option.getD_some]
    refine ⟨waveformStateTemplate.spread
      (waveformResetOverrides (rcrd'.getU "audioContext")), ?_, ?_, ?_, ?_, ?_⟩
    · rw [assocGet_assocSet]; simp
    · intro k
      rw [JObj.keys_spread]
      constructor
      · rintro (hk | hk)
        · exact hk
        · rw [waveformResetOverrides_keys] at hk
          rw [waveformStateTemplate_keys]
          fin_cases hk <;> simp
      · exact Or.inl
    · rw [JObj.getU, JObj.get_spread, ← haudio]
      rfl
    · intro k hk h1 h2
      rw [JObj.get_spread]
      rw [waveformStateTemplate_keys] at hk
      fin_cases hk <;> first
        | rfl
        | exact absurd rfl h1
        | exact absurd rfl h2
    · rw [JObj.getU, JObj.get_spread]
      rfl

/-- Witness for C1's amended theorem: the non-`waveform` part at the
`spiral` key of a world carrying a one-field template, and the
`waveform` part right after registration and a first reset (where
`audioNodes` is the template's truthy `[]`). -/
theorem resetState_template_fidelity_witness :
    (("spiral" : String) ≠ "waveform" ∧
      assocGet (registerVisualizerState "spiral" [("frame", .num 0)]
        emptyWorld).templates "spiral" = some [("frame", .num 0)] ∧
      assocGet (resetState "spiral" (registerVisualizerState "spiral"
        [("frame", .num 0)] emptyWorld)).store "spiral" =
        some [("frame", .num 0)]) ∧
    (assocGet (resetState "waveform" (registerVisualizer "waveform"
        waveformOptions emptyWorld)).templates "waveform" =
        some waveformStateTemplate ∧
      assocGet (resetState "waveform" (registerVisualizer "waveform"
        waveformOptions emptyWorld)).store "waveform" =
        some waveformStateTemplate ∧
      ((waveformStateTemplate : JObj).getU "audioNodes").truthy ∧
      ∃ res, assocGet (resetState "waveform" (resetState "waveform"
          (registerVisualizer "waveform" waveformOptions
            emptyWorld))).store "waveform" = some res ∧
        (∀ k, k ∈ res.keys ↔ k ∈ waveformStateTemplate.keys) ∧
        res.getU "audioContext" =
          (waveformStateTemplate : JObj).getU "audioContext" ∧
        (∀ k ∈ waveformStateTemplate.keys,
           k ≠ "audioContext" → k ≠ "bufferLength" →
           assocGet res k = assocGet waveformStateTemplate k) ∧
        res.getU "bufferLength" = JVal.null) := by
  refine ⟨⟨by decide, rfl,
    resetState_template_fidelity.1 "spiral" [("frame", .num 0)] _
      (by decide) rfl⟩, rfl, rfl, by decide, ?_⟩
  exact resetState_template_fidelity.2 waveformStateTemplate _ rfl rfl
    (by decide)

/-! ## C7: all operations on an unknown key are safe no-ops -/

/-- C7: on a key with no record in the store — under the module
invariants that every registered template has a record and the four
built-in `switch` keys have records, both true from load onward —
`getState` returns `undefined` and `updateState`, `cancelAnimation` and
`resetState` leave the world untouched (in particular they do not
throw: every access in the embedding is guarded exactly as in the
source). -/
theorem unknownKey_ops_noop (key : String) (p : JObj) (w : World)
    (hstore : assocGet w.store key = none)
    (hinv : ∀ k, (assocGet w.templates k).isSome → (assocGet w.store k).isSome)
    (hbuiltins : ∀ k ∈ (["spiral", "ripple", "fractal",
        "constellation"] : List String), (assocGet w.store k).isSome) :
    getState key w = none ∧
    updateState key p w = w ∧
    cancelAnimation key w = w ∧
    resetState key w = w := by
  have htmpl : assocGet w.templates key = none := by
    cases h : assocGet w.templates key with
    | none => rfl
    | some t =>
      have := hinv key (by rw [h]; rfl)
      rw [hstore] at this
      simp at this
  have hs : key ≠ "spiral" := by
    rintro rfl
    have := hbuiltins "spiral" (by simp)
    rw [hstore] at this; simp at this
  have hr : key ≠ "ripple" := by
    rintro rfl
    have := hbuiltins "ripple" (by simp)
    rw [hstore] at this; simp at this
  have hf : key ≠ "fractal" := by
    rintro rfl
    have := hbuiltins "fractal" (by simp)
    rw [hstore] at this; simp at this
  have hc : key ≠ "constellation" := by
    rintro rfl
    have := hbuiltins "constellation" (by simp)
    rw [hstore] at this; simp at this
  have hwave : ¬(key = "waveform" ∧
      (match assocGet w.store "waveform" with
       | some r => (r.getU "audioNodes").truthy
       | none => false) = true) := by
    rintro ⟨rfl, hm⟩
    rw [hstore] at hm
    simp at hm
  refine ⟨hstore, ?_, ?_, ?_⟩
  · unfold updateState
    rw [hstore]
  · unfold cancelAnimation
    rw [hstore]
  · rw [resetState, if_neg hwave]
    simp only [htmpl, hs, hr, hf, hc, if_false]

/-- Witness for C7: the key `"zzz"` on the freshly loaded world. -/
theorem unknownKey_ops_noop_witness :
    (assocGet emptyWorld.store "zzz" = none ∧
      (∀ k, (assocGet emptyWorld.templates k).isSome →
        (assocGet emptyWorld.store k).isSome) ∧
      ∀ k ∈ (["spiral", "ripple", "fractal",
          "constellation"] : List String),
        (assocGet emptyWorld.store k).isSome) ∧
    getState "zzz" emptyWorld = none ∧
    updateState "zzz" [("frame", .num 5)] emptyWorld = emptyWorld ∧
    cancelAnimation "zzz" emptyWorld = emptyWorld ∧
    resetState "zzz" emptyWorld = emptyWorld := by
  have h1 : assocGet emptyWorld.store "zzz" = none := by rfl
  have h2 : ∀ k, (assocGet emptyWorld.templates k).isSome →
      (assocGet emptyWorld.store k).isSome := by
    intro k h
    simp [emptyWorld, assocGet] at h
  have h3 : ∀ k ∈ (["spiral", "ripple", "fractal",
      "constellation"] : List String),
      (assocGet emptyWorld.store k).isSome := by decide
  exact ⟨⟨h1, h2, h3⟩,
    unknownKey_ops_noop "zzz" [("frame", .num 5)] emptyWorld h1 h2 h3⟩

/-! ## C10: frame locality of the state-store operations -/

theorem updateState_other (k j : String) (p : JObj) (w : World)
    (hkj : j ≠ k) :
    assocGet (updateState k p w).store j = assocGet w.store j := by
  unfold updateState
  cases h : assocGet w.store k with
  | none => rfl
  | some rcrd =>
    simp only
    rw [assocGet_assocSet, if_neg (fun hh => hkj hh.symm)]

theorem cancelAnimation_other (k j : String) (w : World) (hkj : j ≠ k) :
    assocGet (cancelAnimation k w).store j = assocGet w.store j := by
  unfold cancelAnimation
  cases h : assocGet w.store k with
  | none => rfl
  | some rcrd =>
    simp only
    by_cases htr : (rcrd.getU "animationId").truthy
    · simp only [htr, if_true, cancelAnimationFrame_store]
      rw [assocGet_assocSet, if_neg (fun hh => hkj hh.symm)]
    · simp [htr]

theorem resetState_other (k j : String) (w : World) (hkj : j ≠ k) :
    assocGet (resetState k w).store j = assocGet w.store j := by
  by_cases hguard : (k = "waveform" ∧
      (match assocGet w.store "waveform" with
       | some r => (r.getU "audioNodes").truthy
       | none => false) = true)
  · obtain ⟨hk, hcond⟩ := hguard
    subst hk
    rw [resetState, if_pos ⟨rfl, hcond⟩]
    cases htm : assocGet (cancelAnimation "waveform" w).templates
        "waveform" with
    | some tmpl =>
      simp only [htm]
      rw [assocGet_assocSet, if_neg (fun hh => hkj hh.symm)]
      exact cancelAnimation_other "waveform" j w hkj
    | none =>
      simp only [htm]
      rw [assocGet_assocSet, if_neg (fun hh => hkj hh.symm)]
      exact cancelAnimation_other "waveform" j w hkj
  · rw [resetState, if_neg hguard]
    cases htm : assocGet w.templates k with
    | some tmpl =>
      simp only [htm]
      rw [assocGet_assocSet, if_neg (fun hh => hkj hh.symm)]
    | none =>
      simp only [htm]
      by_cases h1 : k = "spiral"
      · subst h1
        simp only [eq_self_iff_true, if_true]
        rw [assocGet_assocSet, if_neg (fun hh => hkj hh.symm)]
      · by_cases h2 : k = "ripple"
        · subst h2
          simp only [h1, if_false, eq_self_iff_true, if_true]
          rw [assocGet_assocSet, if_neg (fun hh => hkj hh.symm)]
        · by_cases h3 : k = "fractal"
          · subst h3
            simp only [h1, h2, if_false, eq_self_iff_true, if_true]
            rw [assocGet_assocSet, if_neg (fun hh => hkj hh.symm)]
          · by_cases h4 : k = "constellation"
            · subst h4
              simp only [h1, h2, h3, if_false, eq_self_iff_true, if_true]
              rw [assocGet_assocSet, if_neg (fun hh => hkj hh.symm)]
            · simp [h1, h2, h3, h4]

/-- C10: every state-store operation is frame-local to its addressed
key: for `j ≠ k`, `updateState(k, ·)`, `resetState(k)` and
`cancelAnimation(k)` leave `j`'s record untouched; and `updateState`
leaves every field of `k`'s record not named in the partial equal to its
prior value (the merged record is the shallow spread of the old record
with the partial). -/
theorem state_ops_frame_local (k j : String) (p : JObj) (w : World)
    (hkj : j ≠ k) :
    assocGet (updateState k p w).store j = assocGet w.store j ∧
    assocGet (cancelAnimation k w).store j = assocGet w.store j ∧
    assocGet (resetState k w).store j = assocGet w.store j ∧
    (∀ rcrd f, assocGet w.store k = some rcrd → assocGet p f = none →
       assocGet (updateState k p w).store k = some (rcrd.spread p) ∧
       assocGet (rcrd.spread p) f = assocGet rcrd f) := by
  refine ⟨updateState_other k j p w hkj, cancelAnimation_other k j w hkj,
    resetState_other k j w hkj, ?_⟩
  intro rcrd f hrcrd hf
  constructor
  · unfold updateState
    rw [hrcrd]
    simp only
    rw [assocGet_assocSet, if_pos rfl]
  · rw [JObj.get_spread, hf]
    cases assocGet rcrd f <;> simp [Option.or]

/-- Witness for C10: `k = "spiral"`, `j = "ripple"` on the freshly
loaded world, with a partial update naming only `frame`. -/
theorem state_ops_frame_local_witness :
    (("ripple" : String) ≠ "spiral") ∧
    (assocGet (updateState "spiral" [("frame", .num 5)]
        emptyWorld).store "ripple" = assocGet emptyWorld.store "ripple" ∧
      assocGet (cancelAnimation "spiral" emptyWorld).store "ripple" =
        assocGet emptyWorld.store "ripple" ∧
      assocGet (resetState "spiral" emptyWorld).store "ripple" =
        assocGet emptyWorld.store "ripple" ∧
      (∀ rcrd f, assocGet emptyWorld.store "spiral" = some rcrd →
         assocGet ([("frame", JVal.num 5)] : JObj) f = none →
         assocGet (updateState "spiral" [("frame", .num 5)]
           emptyWorld).store "spiral" = some (rcrd.spread
             [("frame", .num 5)]) ∧
         assocGet (rcrd.spread [("frame", .num 5)]) f =
           assocGet rcrd f)) :=
  ⟨by decide,
   state_ops_frame_local "spiral" "ripple" [("frame", .num 5)]
     emptyWorld (by decide)⟩

/-! ## C8: registration is DOM-idempotent -/

theorem assocSet_absent {α : Type} (m : List (String × α)) (k : String)
    (v : α) (h : assocGet m k = none) : assocSet m k v = m ++ [(k, v)] := by
  induction m with
  | nil => rfl
  | cons p m ih =>
    obtain ⟨k0, v0⟩ := p
    by_cases h0 : k0 = k
    · subst h0; simp [assocGet] at h
    · simp only [assocGet, h0, if_false] at h
      simp [assocSet, h0, ih h]

theorem assocGet_append_right {α : Type} (m : List (String × α))
    (k : String) (v : α) (h : assocGet m k = none) :
    assocGet (m ++ [(k, v)]) k = some v := by
  induction m with
  | nil => simp [assocGet]
  | cons p m ih =>
    obtain ⟨k0, v0⟩ := p
    by_cases h0 : k0 = k
    · subst h0; simp [assocGet] at h
    · simp only [assocGet, h0, if_false] at h
      simp only [List.cons_append, assocGet, h0, if_false]
      exact ih h

theorem assocGet_append_left {α : Type} (m l : List (String × α))
    (k : String) (h : (assocGet m k).isSome) :
    assocGet (m ++ l) k = assocGet m k := by
  induction m with
  | nil => simp [assocGet] at h
  | cons p m ih =>
    obtain ⟨k0, v0⟩ := p
    by_cases h0 : k0 = k
    · simp [assocGet, h0]
    · simp only [assocGet, h0, if_false] at h
      simp only [List.cons_append, assocGet, h0, if_false]
      exact ih h

theorem mem_map_fst_iff_assocGet {α : Type} (m : List (String × α))
    (k : String) : k ∈ m.map Prod.fst ↔ (assocGet m k).isSome := by
  induction m with
  | nil => simp [assocGet]
  | cons p m ih =>
    obtain ⟨k0, v0⟩ := p
    by_cases h0 : k0 = k
    · subst h0; simp [assocGet]
    · simp only [List.map_cons, List.mem_cons] at ih ⊢
      simp [assocGet, h0, Ne.symm h0, ih]

/-- `createOrGetContainer` on an id already in the DOM is the identity. -/
theorem createOrGetContainer_found (cid : String) (w : World)
    (h : (assocGet w.dom cid).isSome) :
    createOrGetContainer cid w = ((assocGet w.dom cid).getD 0, w) := by
  unfold createOrGetContainer
  cases h' : assocGet w.dom cid with
  | none => rw [h'] at h; simp at h
  | some e => simp [h']

/-- `createOrGetCanvas` on an id already in the DOM is the identity. -/
theorem createOrGetCanvas_found (cid : String) (w : World)
    (h : (assocGet w.dom cid).isSome) :
    createOrGetCanvas cid w = ((assocGet w.dom cid).getD 0, w) := by
  unfold createOrGetCanvas
  cases h' : assocGet w.dom cid with
  | none => rw [h'] at h; simp at h
  | some e => simp [h']

/-- After `createOrGetContainer`, the id is in the DOM; ids already
present stay present with their node identity unchanged; the DOM keys
either stay put or grow by exactly the new id; key uniqueness is
preserved. -/
theorem createOrGetContainer_after (cid : String) (w : World) :
    (assocGet (createOrGetContainer cid w).2.dom cid).isSome ∧
    (∀ i, (assocGet w.dom i).isSome →
      assocGet (createOrGetContainer cid w).2.dom i = assocGet w.dom i) ∧
    ((createOrGetContainer cid w).2.dom.map Prod.fst = w.dom.map Prod.fst ∨
      (createOrGetContainer cid w).2.dom.map Prod.fst =
        w.dom.map Prod.fst ++ [cid]) ∧
    ((w.dom.map Prod.fst).Nodup →
      ((createOrGetContainer cid w).2.dom.map Prod.fst).Nodup) := by
  unfold createOrGetContainer
  cases h : assocGet w.dom cid with
  | some e => simp [h]
  | none =>
    simp only
    rw [assocSet_absent w.dom cid w.domFresh h]
    refine ⟨?_, ?_, ?_, ?_⟩
    · rw [assocGet_append_right w.dom cid w.domFresh h]; rfl
    · intro i hi
      exact assocGet_append_left w.dom [(cid, w.domFresh)] i hi
    · right; simp
    · intro hnd
      rw [List.map_append, List.nodup_append]
      refine ⟨hnd, by simp, ?_⟩
      intro a ha hb
      simp only [List.map_cons, List.map_nil, List.mem_singleton] at hb
      subst hb
      rw [mem_map_fst_iff_assocGet] at ha
      rw [h] at ha
      simp at ha

/-- Same facts for `createOrGetCanvas`. -/
theorem createOrGetCanvas_after (cid : String) (w : World) :
    (assocGet (createOrGetCanvas cid w).2.dom cid).isSome ∧
    (∀ i, (assocGet w.dom i).isSome →
      assocGet (createOrGetCanvas cid w).2.dom i = assocGet w.dom i) ∧
    ((createOrGetCanvas cid w).2.dom.map Prod.fst = w.dom.map Prod.fst ∨
      (createOrGetCanvas cid w).2.dom.map Prod.fst =
        w.dom.map Prod.fst ++ [cid]) ∧
    ((w.dom.map Prod.fst).Nodup →
      ((createOrGetCanvas cid w).2.dom.map Prod.fst).Nodup) := by
  have hsame : (createOrGetCanvas cid w).2.dom =
      (createOrGetContainer cid w).2.dom := by
    unfold createOrGetCanvas createOrGetContainer
    cases h : assocGet w.dom cid <;> simp [h]
  rw [hsame]
  exact createOrGetContainer_after cid w

/-- The registry-and-template bookkeeping of `registerVisualizer` does
not touch the DOM: its DOM is the one produced by the two
`createOrGet` steps. -/
theorem registerVisualizer_dom (name : String) (opts : VizOptions)
    (w : World) :
    (registerVisualizer name opts w).dom =
      (createOrGetCanvas (defaultCanvasId name opts.canvasId)
        (createOrGetContainer (defaultContainerId name opts.containerId)
          w).2).2.dom ∧
    (registerVisualizer name opts w).domFresh =
      (createOrGetCanvas (defaultCanvasId name opts.canvasId)
        (createOrGetContainer (defaultContainerId name opts.containerId)
          w).2).2.domFresh ∧
    (registerVisualizer name opts w).createdCanvases =
      (createOrGetCanvas (defaultCanvasId name opts.canvasId)
        (createOrGetContainer (defaultContainerId name opts.containerId)
          w).2).2.createdCanvases := by
  unfold registerVisualizer createVisualizer registerVisualizerState
  by_cases h : (assocGet (createOrGetCanvas (defaultCanvasId name
      opts.canvasId) (createOrGetContainer (defaultContainerId name
      opts.containerId) w).2).2.store name).isSome <;>
    simp [h]

/-- The registry entry after `registerVisualizer` is the descriptor
built from the given options. -/
theorem registerVisualizer_visualizers (name : String)
    (opts : VizOptions) (w : World) :
    assocGet (registerVisualizer name opts w).visualizers name =
      some { name := name, displayName := opts.displayName,
             icon := opts.icon,
             canvasId := defaultCanvasId name opts.canvasId,
             containerId := defaultContainerId name opts.containerId } := by
  unfold registerVisualizer createVisualizer registerVisualizerState
  by_cases h : (assocGet (createOrGetCanvas (defaultCanvasId name
      opts.canvasId) (createOrGetContainer (defaultContainerId name
      opts.containerId) w).2).2.store name).isSome <;>
    simp [h, assocGet_assocSet]

/-- The `createOrGet` pair never removes DOM entries. -/
theorem registerVisualizer_dom_mono (name : String) (opts : VizOptions)
    (w : World) (i : String) (hi : (assocGet w.dom i).isSome) :
    assocGet (registerVisualizer name opts w).dom i = assocGet w.dom i := by
  obtain ⟨hdom, _, _⟩ := registerVisualizer_dom name opts w
  rw [hdom]
  have h1 := (createOrGetContainer_after
    (defaultContainerId name opts.containerId) w).2.1 i hi
  have h2 := (createOrGetCanvas_after (defaultCanvasId name opts.canvasId)
    (createOrGetContainer (defaultContainerId name opts.containerId)
      w).2).2.1 i (by rw [h1]; exact hi)
  rw [h2, h1]

/-- C8: registration is idempotent with respect to DOM materialization:
a second `registerVisualizer` call for the same key (with the same id
configuration) creates no DOM node — the DOM, the identity counter and
the created-canvas set are unchanged, so the container and canvas
element identities of the first call are reused — the registry entry is
overwritten with the new descriptor, and (starting from a DOM with
unique ids) the container id and the canvas id each name exactly one
element. -/
theorem registerVisualizer_dom_idempotent (name : String)
    (o o' : VizOptions) (w : World) (hcan : o'.canvasId = o.canvasId)
    (hcon : o'.containerId = o.containerId)
    (hnodup : (w.dom.map Prod.fst).Nodup) :
    (registerVisualizer name o' (registerVisualizer name o w)).dom =
      (registerVisualizer name o w).dom ∧
    (registerVisualizer name o' (registerVisualizer name o w)).domFresh =
      (registerVisualizer name o w).domFresh ∧
    (registerVisualizer name o' (registerVisualizer name o
        w)).createdCanvases =
      (registerVisualizer name o w).createdCanvases ∧
    ((registerVisualizer name o w).dom.map Prod.fst).count
      (defaultContainerId name o.containerId) = 1 ∧
    ((registerVisualizer name o w).dom.map Prod.fst).count
      (defaultCanvasId name o.canvasId) = 1 ∧
    assocGet (registerVisualizer name o' (registerVisualizer name o
        w)).visualizers name =
      some { name := name, displayName := o'.displayName,
             icon := o'.icon,
             canvasId := defaultCanvasId name o'.canvasId,
             containerId := defaultContainerId name o'.containerId } := by
  set cid := defaultContainerId name o.containerId with hcid
  set canid := defaultCanvasId name o.canvasId with hcanid
  set w0 := (createOrGetContainer cid w).2 with hw0
  set wc := (createOrGetCanvas canid w0).2 with hwc
  obtain ⟨hw1dom, hw1fresh, hw1cc⟩ := registerVisualizer_dom name o w
  rw [← hcid, ← hcanid, ← hw0, ← hwc] at hw1dom hw1fresh hw1cc
  -- both ids are present after the first call
  have hccont := createOrGetContainer_after cid w
  have hccanv := createOrGetCanvas_after canid w0
  have hcontIn : (assocGet wc.dom cid).isSome := by
    have := hccanv.2.1 cid hccont.1
    rw [← hwc] at this
    rw [this]
    exact hccont.1
  have hcanvIn : (assocGet wc.dom canid).isSome := hccanv.1
  have hcontIn1 : (assocGet (registerVisualizer name o w).dom cid).isSome := by
    rw [hw1dom]; exact hcontIn
  have hcanvIn1 : (assocGet (registerVisualizer name o w).dom
      canid).isSome := by
    rw [hw1dom]; exact hcanvIn
  -- facts about the second call
  obtain ⟨hw2dom, hw2fresh, hw2cc⟩ :=
    registerVisualizer_dom name o' (registerVisualizer name o w)
  rw [hcan, hcon, ← hcid, ← hcanid] at hw2dom hw2fresh hw2cc
  have hfound1 := createOrGetContainer_found cid
    (registerVisualizer name o w) hcontIn1
  have hfound2 := createOrGetCanvas_found canid
    (registerVisualizer name o w) hcanvIn1
  have hsecond : (createOrGetCanvas canid (createOrGetContainer cid
      (registerVisualizer name o w)).2).2 =
      registerVisualizer name o w := by
    rw [hfound1]
    simp only
    rw [hfound2]
  refine ⟨?_, ?_, ?_, ?_, ?_, ?_⟩
  · rw [hw2dom, hsecond]
  · rw [hw2fresh, hsecond]
  · rw [hw2cc, hsecond]
  · have hnd : ((registerVisualizer name o w).dom.map Prod.fst).Nodup := by
      rw [hw1dom]
      exact hccanv.2.2.2 (hccont.2.2.2 hnodup)
    exact List.count_eq_one_of_mem hnd
      ((mem_map_fst_iff_assocGet _ _).mpr hcontIn1)
  · have hnd : ((registerVisualizer name o w).dom.map Prod.fst).Nodup := by
      rw [hw1dom]
      exact hccanv.2.2.2 (hccont.2.2.2 hnodup)
    exact List.count_eq_one_of_mem hnd
      ((mem_map_fst_iff_assocGet _ _).mpr hcanvIn1)
  · exact registerVisualizer_visualizers name o' (registerVisualizer name o w)

/-- Witness for C8: registering the `waveform` descriptor twice on the
freshly loaded world. -/
theorem registerVisualizer_dom_idempotent_witness :
    (waveformOptions.canvasId = waveformOptions.canvasId ∧
      waveformOptions.containerId = waveformOptions.containerId ∧
      ((emptyWorld.dom.map Prod.fst).Nodup)) ∧
    ((registerVisualizer "waveform" waveformOptions (registerVisualizer
        "waveform" waveformOptions emptyWorld)).dom =
      (registerVisualizer "waveform" waveformOptions emptyWorld).dom ∧
    ((registerVisualizer "waveform" waveformOptions
        emptyWorld).dom.map Prod.fst).count
      (defaultContainerId "waveform" waveformOptions.containerId) = 1 ∧
    ((registerVisualizer "waveform" waveformOptions
        emptyWorld).dom.map Prod.fst).count
      (defaultCanvasId "waveform" waveformOptions.canvasId) = 1) := by
  refine ⟨⟨rfl, rfl, by simp [emptyWorld]⟩, ?_, ?_, ?_⟩
  · exact (registerVisualizer_dom_idempotent "waveform" waveformOptions
      waveformOptions emptyWorld rfl rfl (by simp [emptyWorld])).1
  · exact (registerVisualizer_dom_idempotent "waveform" waveformOptions
      waveformOptions emptyWorld rfl rfl (by simp [emptyWorld])).2.2.2.1
  · exact (registerVisualizer_dom_idempotent "waveform" waveformOptions
      waveformOptions emptyWorld rfl rfl (by simp [emptyWorld])).2.2.2.2.1

/-! ## C6: plugin exceptions are confined -/

theorem cancelAnimationFrame_errors (v : JVal) (w : World) :
    (cancelAnimationFrame v w).errors = w.errors := by
  cases v <;> rfl

theorem animateTypewriter_frame (t : String) (w : World) :
    (animateTypewriter t w).store = w.store ∧
    (animateTypewriter t w).templates = w.templates ∧
    (animateTypewriter t w).dom = w.dom ∧
    (animateTypewriter t w).pending = w.pending ∧
    (animateTypewriter t w).nextRaf = w.nextRaf ∧
    (animateTypewriter t w).events = w.events ∧
    (animateTypewriter t w).errors = w.errors := by
  unfold animateTypewriter
  cases w.typewriterTimeoutId <;> by_cases h : t = "" <;> simp [h]

theorem cancelAnimation_errors (t : String) (w : World) :
    (cancelAnimation t w).errors = w.errors := by
  unfold cancelAnimation
  cases assocGet w.store t with
  | none => rfl
  | some rcrd =>
    by_cases h : (rcrd.getU "animationId").truthy <;>
      simp [h, cancelAnimationFrame_errors]

theorem resetState_errors (t : String) (w : World) :
    (resetState t w).errors = w.errors := by
  unfold resetState
  split
  · cases htm : assocGet (cancelAnimation "waveform" w).templates t <;>
      simp [htm, cancelAnimation_errors]
  · cases htm : assocGet w.templates t with
    | some tmpl => simp [htm]
    | none =>
      simp only [htm]
      by_cases h1 : t = "spiral" <;> by_cases h2 : t = "ripple" <;>
        by_cases h3 : t = "fractal" <;>
        by_cases h4 : t = "constellation" <;>
        simp [h1, h2, h3, h4]

theorem guardedCall_snd (rf : Plugin) (word : String)
    (layers : List (List Char)) (w : World) :
    (guardedCall rf word layers w).2 = none := by
  unfold guardedCall
  split <;> rfl

theorem guardedRedraw_snd (rdf : RedrawFn) (state : JObj) (w : World) :
    (guardedRedraw rdf state w).2 = none := by
  unfold guardedRedraw
  split <;> rfl

theorem guardedCall_scheduling (name word : String)
    (layers : List (List Char)) (w : World) :
    guardedCall (schedulingPlugin name) word layers w =
      (updateState name [("animationId", JVal.num w.nextRaf)]
        { w with
            pending := w.pending ++ [w.nextRaf]
            nextRaf := w.nextRaf + 1
            events := w.events ++ [.requestFrame w.nextRaf] }, none) := rfl

theorem guardedCall_throwing (e word : String)
    (layers : List (List Char)) (w : World) :
    guardedCall (throwingPlugin e) word layers w =
      ({ w with errors := w.errors ++ [e] }, none) := rfl

/-- With the guards passed, `render` is the layer/caption/cancel/reset
pipeline followed by the guarded plugin call. -/
theorem render_eq (name containerId canvasId word : String)
    (ld : Option ℕ) (rf : Plugin) (w : World) (hword : word ≠ "")
    (c k : ℕ) (hc : assocGet w.dom containerId = some c)
    (hk : assocGet w.dom canvasId = some k) :
    render name containerId canvasId ld rf word w =
      guardedCall rf word (generatePhoneticLayers word (jsOrNat ld 3))
        (resetState name (cancelAnimation name (animateTypewriter
          (getFinalLayerText (generatePhoneticLayers word
            (jsOrNat ld 3))) w))) := by
  unfold render
  rw [if_neg hword, hc, hk]

/-- C6: a plugin exception thrown inside a render or redraw callback is
caught at the instance boundary: `render` and `redraw` never propagate
an exception to their caller, and when the callback throws, the error is
appended to the console-error log (one entry, the world otherwise as the
callback left it). -/
theorem plugin_errors_contained :
    (∀ (rf : Plugin) (name containerId canvasId word : String)
        (ld : Option ℕ) (w : World),
        (render name containerId canvasId ld rf word w).2 = none) ∧
    (∀ (rdf : RedrawFn) (name canvasId : String) (w : World),
        (redraw name canvasId rdf w).2 = none) ∧
    (∀ (e name containerId canvasId word : String) (ld : Option ℕ)
        (w : World), word ≠ "" →
        (assocGet w.dom containerId).isSome →
        (assocGet w.dom canvasId).isSome →
        (render name containerId canvasId ld (throwingPlugin e) word
          w).1.errors = w.errors ++ [e]) ∧
    (∀ (e name canvasId : String) (w : World),
        (redraw name canvasId (throwingRedraw e) w).1.errors =
          w.errors ++ [e] ∨
        (redraw name canvasId (throwingRedraw e) w).1.errors =
          w.errors ++ ["no state found"] ∨
        (redraw name canvasId (throwingRedraw e) w).1.errors =
          w.errors ++ ["canvas not found"]) := by
  refine ⟨?_, ?_, ?_, ?_⟩
  · intro rf name containerId canvasId word ld w
    unfold render
    split
    · rfl
    · split
      · rfl
      · split
        · rfl
        · exact guardedCall_snd rf word _ _
  · intro rdf name canvasId w
    unfold redraw
    split
    · rfl
    · split
      · rfl
      · exact guardedRedraw_snd rdf _ w
  · intro e name containerId canvasId word ld w hword hcont hcanv
    obtain ⟨c, hc⟩ := Option.isSome_iff_exists.mp hcont
    obtain ⟨k, hk⟩ := Option.isSome_iff_exists.mp hcanv
    rw [render_eq name containerId canvasId word ld (throwingPlugin e) w
      hword c k hc hk]
    show (resetState name (cancelAnimation name (animateTypewriter
        (getFinalLayerText (generatePhoneticLayers word (jsOrNat ld 3)))
        w))).errors ++ [e] = w.errors ++ [e]
    rw [resetState_errors, cancelAnimation_errors,
      (animateTypewriter_frame _ _).2.2.2.2.2.2]
  · intro e name canvasId w
    unfold redraw
    split
    · right; left; rfl
    · split
      · right; right; rfl
      · left; rfl

/-- Witness for C6: a plugin that throws `"boom"` on the `spiral` key in
a world whose DOM carries the spiral container/canvas pair; the error is
logged, not propagated. -/
theorem plugin_errors_contained_witness :
    (("dog" : String) ≠ "" ∧
      (assocGet (registerVisualizer "spiral" spiralOptions
        emptyWorld).dom "spiralContainer").isSome ∧
      (assocGet (registerVisualizer "spiral" spiralOptions
        emptyWorld).dom "spiral").isSome) ∧
    (render "spiral" "spiralContainer" "spiral" (some 3)
        (throwingPlugin "boom") "dog"
        (registerVisualizer "spiral" spiralOptions emptyWorld)).2 =
      none ∧
    (render "spiral" "spiralContainer" "spiral" (some 3)
        (throwingPlugin "boom") "dog"
        (registerVisualizer "spiral" spiralOptions
          emptyWorld)).1.errors =
      (registerVisualizer "spiral" spiralOptions emptyWorld).errors ++
        ["boom"] := by
  refine ⟨⟨by decide, by rfl, by rfl⟩, ?_, ?_⟩
  · exact plugin_errors_contained.1 (throwingPlugin "boom") "spiral"
      "spiralContainer" "spiral" "dog" (some 3) _
  · exact plugin_errors_contained.2.2.1 "boom" "spiral" "spiralContainer"
      "spiral" "dog" (some 3) _ (by decide) (by rfl) (by rfl)

/-! ## C2: at most one pending animation-frame handle per key -/

/-- `cancelAnimation` is the identity when the record's `animationId` is
not truthy (`null` in the idle state). -/
theorem cancelAnimation_noop (name : String) (w : World) (rcrd : JObj)
    (h : assocGet w.store name = some rcrd)
    (hnull : ¬ (rcrd.getU "animationId").truthy) :
    cancelAnimation name w = w := by
  unfold cancelAnimation
  rw [h]
  simp [hnull]

/-- `cancelAnimation` on a numeric non-zero `animationId` drops the
handle from the pending set, records the `cancelAnimationFrame` call and
nulls the field. -/
theorem cancelAnimation_num (name : String) (w : World) (rcrd : JObj)
    (id : ℚ) (h : assocGet w.store name = some rcrd)
    (hnum : rcrd.getU "animationId" = JVal.num id) (hnz : id ≠ 0) :
    cancelAnimation name w =
      { w with
          pending := w.pending.erase id
          events := w.events ++ [.cancelFrame id]
          store := assocSet w.store name
            (assocSet rcrd "animationId" .null) } := by
  unfold cancelAnimation
  rw [h]
  simp only [hnum]
  rw [if_pos (by simpa [JVal.truthy] using hnz)]
  rfl

/-- `resetState` on a non-`waveform` key with a registered template is
the shallow template copy. -/
theorem resetState_tmpl (name : String) (w : World) (tmpl : JObj)
    (hname : name ≠ "waveform")
    (htmpl : assocGet w.templates name = some tmpl) :
    resetState name w = { w with store := assocSet w.store name tmpl } := by
  rw [resetState, if_neg (by rintro ⟨rfl, _⟩; exact hname rfl)]
  rw [htmpl]

/-- `updateState` on an existing record is the shallow merge. -/
theorem updateState_some (name : String) (p : JObj) (w : World)
    (rcrd : JObj) (h : assocGet w.store name = some rcrd) :
    updateState name p w =
      { w with store := assocSet w.store name (rcrd.spread p) } := by
  unfold updateState
  rw [h]

/-- `resetState` on a key with a registered template, when the current
record's `animationId` is not truthy (the state right after `render`'s
own `cancelAnimation`): every branch — the `waveform` special case
included, whose inner `cancelAnimation` is then a no-op — replaces only
the addressed record, with either the plain template copy or the
template spread with the waveform overrides. -/
theorem resetState_registered (name : String) (w : World)
    (tmpl rcrd : JObj)
    (htmpl : assocGet w.templates name = some tmpl)
    (hrcrd : assocGet w.store name = some rcrd)
    (hquiet : ¬ (rcrd.getU "animationId").truthy) :
    ∃ R, resetState name w = { w with store := assocSet w.store name R } := by
  by_cases hguard : (name = "waveform" ∧
      (match assocGet w.store "waveform" with
       | some r => (r.getU "audioNodes").truthy
       | none => false) = true)
  · obtain ⟨hn, hcond⟩ := hguard
    subst hn
    rw [resetState, if_pos ⟨rfl, hcond⟩]
    rw [cancelAnimation_noop "waveform" w rcrd hrcrd hquiet]
    refine ⟨tmpl.spread (waveformResetOverrides
      (rcrd.getU "audioContext")), ?_⟩
    simp only [hrcrd, Option.getD_some, htmpl]
  · rw [resetState, if_neg hguard, htmpl]
    exact ⟨tmpl, rfl⟩

/-- One `render` call with the loop-starting plugin, on a key with a
registered template whose record is idle (`animationId = null`): exactly
one new frame handle is requested and stored on top of the freshly
reset record; nothing is cancelled. -/
theorem render_sched_idle (name containerId canvasId word : String)
    (ld : Option ℕ) (tmpl rcrd : JObj) (w : World) (c k : ℕ)
    (hword : word ≠ "")
    (hc : assocGet w.dom containerId = some c)
    (hk : assocGet w.dom canvasId = some k)
    (hrcrd : assocGet w.store name = some rcrd)
    (hanim : rcrd.getU "animationId" = JVal.null)
    (htmpl : assocGet w.templates name = some tmpl) :
    ∃ R, (render name containerId canvasId ld (schedulingPlugin name)
        word w).1 =
      { animateTypewriter (getFinalLayerText (generatePhoneticLayers
          word (jsOrNat ld 3))) w with
          pending := w.pending ++ [w.nextRaf]
          nextRaf := w.nextRaf + 1
          events := w.events ++ [.requestFrame w.nextRaf]
          store := assocSet (assocSet w.store name R) name
            (R.spread [("animationId", JVal.num w.nextRaf)]) } := by
  obtain ⟨hst, htm, hdm, hpd, hnr, hev, herr⟩ :=
    animateTypewriter_frame (getFinalLayerText (generatePhoneticLayers
      word (jsOrNat ld 3))) w
  obtain ⟨R, hR⟩ := resetState_registered name
    (animateTypewriter (getFinalLayerText (generatePhoneticLayers word
      (jsOrNat ld 3))) w) tmpl rcrd (by rw [htm]; exact htmpl)
    (by rw [hst]; exact hrcrd) (by rw [hanim]; decide)
  refine ⟨R, ?_⟩
  rw [render_eq name containerId canvasId word ld (schedulingPlugin name)
    w hword c k hc hk]
  rw [cancelAnimation_noop name _ rcrd (by rw [hst]; exact hrcrd)
    (by rw [hanim]; decide)]
  rw [hR]
  rw [guardedCall_scheduling]
  rw [updateState_some name _ _ R (by
    show assocGet (assocSet _ name R) name = some R
    rw [assocGet_assocSet, if_pos rfl])]
  simp only [hst, htm, hdm, hpd, hnr, hev, herr]

/-- One `render` call with the loop-starting plugin, on a key with a
registered template whose record holds a pending numeric handle: the old
handle is cancelled, the state is reset, and only then is exactly one
new handle requested and stored, with the `cancelAnimationFrame` call
strictly before the new `requestAnimationFrame` call in the trace. -/
theorem render_sched_busy (name containerId canvasId word : String)
    (ld : Option ℕ) (tmpl rcrd : JObj) (w : World) (c k : ℕ) (id : ℚ)
    (hword : word ≠ "")
    (hc : assocGet w.dom containerId = some c)
    (hk : assocGet w.dom canvasId = some k)
    (hrcrd : assocGet w.store name = some rcrd)
    (hanim : rcrd.getU "animationId" = JVal.num id) (hnz : id ≠ 0)
    (htmpl : assocGet w.templates name = some tmpl) :
    ∃ R, (render name containerId canvasId ld (schedulingPlugin name)
        word w).1 =
      { animateTypewriter (getFinalLayerText (generatePhoneticLayers
          word (jsOrNat ld 3))) w with
          pending := w.pending.erase id ++ [w.nextRaf]
          nextRaf := w.nextRaf + 1
          events := w.events ++ [.cancelFrame id,
            .requestFrame w.nextRaf]
          store := assocSet (assocSet (assocSet w.store name (assocSet
              rcrd "animationId" .null)) name R) name
            (R.spread [("animationId", JVal.num w.nextRaf)]) } := by
  obtain ⟨hst, htm, hdm, hpd, hnr, hev, herr⟩ :=
    animateTypewriter_frame (getFinalLayerText (generatePhoneticLayers
      word (jsOrNat ld 3))) w
  rw [render_eq name containerId canvasId word ld (schedulingPlugin name)
    w hword c k hc hk]
  set wt := animateTypewriter (getFinalLayerText (generatePhoneticLayers
    word (jsOrNat ld 3))) w
  obtain ⟨R, hR⟩ := resetState_registered name
    { wt with
        pending := wt.pending.erase id
        events := wt.events ++ [.cancelFrame id]
        store := assocSet wt.store name
          (assocSet rcrd "animationId" .null) }
    tmpl (assocSet rcrd "animationId" .null)
    (by show assocGet wt.templates name = some tmpl
        rw [htm]; exact htmpl)
    (by show assocGet (assocSet wt.store name
          (assocSet rcrd "animationId" JVal.null)) name = some _
        rw [assocGet_assocSet, if_pos rfl])
    (by show ¬ (JObj.getU (assocSet rcrd "animationId"
          JVal.null) "animationId").truthy = true
        unfold JObj.getU
        rw [assocGet_assocSet, if_pos rfl]
        decide)
  refine ⟨R, ?_⟩
  rw [cancelAnimation_num name _ rcrd id (by rw [hst]; exact hrcrd)
    hanim hnz]
  rw [hR]
  rw [guardedCall_scheduling]
  rw [updateState_some name _ _ R (by
    show assocGet (assocSet _ name R) name = some R
    rw [assocGet_assocSet, if_pos rfl])]
  simp only [hst, htm, hdm, hpd, hnr, hev, herr, List.append_assoc,
    List.singleton_append, List.cons_append, List.nil_append]

/-- C2: `render(word)` cancels the key's stored handle before the reset
and before the plugin may schedule a new frame — for every key,
`waveform` included.  Starting from an idle world with no pending
handle, two successive `render` calls leave exactly one pending handle
(the second call's), the stored record holds exactly that handle, and
the second call's trace shows the `cancelAnimationFrame` of the first
call's handle strictly before the new `requestAnimationFrame`. -/
theorem render_twice_single_handle
    (name containerId canvasId word : String) (ld : Option ℕ)
    (tmpl rcrd : JObj) (w : World)
    (hword : word ≠ "")
    (hcont : (assocGet w.dom containerId).isSome)
    (hcanv : (assocGet w.dom canvasId).isSome)
    (hrcrd : assocGet w.store name = some rcrd)
    (hanim : rcrd.getU "animationId" = JVal.null)
    (htmpl : assocGet w.templates name = some tmpl)
    (hpend : w.pending = []) (hraf : 1 ≤ w.nextRaf) :
    (render name containerId canvasId ld (schedulingPlugin name) word
        w).1.pending = [w.nextRaf] ∧
    (render name containerId canvasId ld (schedulingPlugin name) word
        w).1.events = w.events ++ [.requestFrame w.nextRaf] ∧
    (render name containerId canvasId ld (schedulingPlugin name) word
        (render name containerId canvasId ld (schedulingPlugin name)
          word w).1).1.pending = [w.nextRaf + 1] ∧
    (∃ r2, assocGet (render name containerId canvasId ld
        (schedulingPlugin name) word (render name containerId canvasId
          ld (schedulingPlugin name) word w).1).1.store name = some r2 ∧
      r2.getU "animationId" = JVal.num (w.nextRaf + 1)) ∧
    (render name containerId canvasId ld (schedulingPlugin name) word
        (render name containerId canvasId ld (schedulingPlugin name)
          word w).1).1.events =
      w.events ++ [.requestFrame w.nextRaf, .cancelFrame w.nextRaf,
        .requestFrame (w.nextRaf + 1)] := by
  obtain ⟨c, hc⟩ := Option.isSome_iff_exists.mp hcont
  obtain ⟨k, hk⟩ := Option.isSome_iff_exists.mp hcanv
  obtain ⟨hst, htm, hdm, hpd, hnr, hev, herr⟩ :=
    animateTypewriter_frame (getFinalLayerText (generatePhoneticLayers
      word (jsOrNat ld 3))) w
  obtain ⟨R1, h1⟩ := render_sched_idle name containerId canvasId word ld
    tmpl rcrd w c k hword hc hk hrcrd hanim htmpl
  have hnz : w.nextRaf ≠ 0 := by
    intro h0
    rw [h0] at hraf
    norm_num at hraf
  -- fields of the world after the first call
  have h1pend : (render name containerId canvasId ld
      (schedulingPlugin name) word w).1.pending = [w.nextRaf] := by
    rw [h1]
    simp [hpend]
  have h1ev : (render name containerId canvasId ld
      (schedulingPlugin name) word w).1.events =
      w.events ++ [.requestFrame w.nextRaf] := by
    rw [h1]
  have h1raf : (render name containerId canvasId ld
      (schedulingPlugin name) word w).1.nextRaf = w.nextRaf + 1 := by
    rw [h1]
  have h1dom : (render name containerId canvasId ld
      (schedulingPlugin name) word w).1.dom = w.dom := by
    rw [h1]
    exact hdm
  have h1tm : (render name containerId canvasId ld
      (schedulingPlugin name) word w).1.templates = w.templates := by
    rw [h1]
    exact htm
  have h1store : assocGet (render name containerId canvasId ld
      (schedulingPlugin name) word w).1.store name =
      some (R1.spread [("animationId", JVal.num w.nextRaf)]) := by
    rw [h1]
    show assocGet (assocSet _ name _) name = _
    rw [assocGet_assocSet, if_pos rfl]
  have h1anim : (R1.spread [("animationId",
      JVal.num w.nextRaf)]).getU "animationId" =
      JVal.num w.nextRaf := by
    unfold JObj.getU
    rw [JObj.get_spread]
    rfl
  -- the second call
  obtain ⟨R2, h2⟩ := render_sched_busy name containerId canvasId word ld
    tmpl (R1.spread [("animationId", JVal.num w.nextRaf)])
    (render name containerId canvasId ld (schedulingPlugin name) word
      w).1 c k w.nextRaf hword (by rw [h1dom]; exact hc)
    (by rw [h1dom]; exact hk) h1store h1anim hnz
    (by rw [h1tm]; exact htmpl)
  refine ⟨h1pend, h1ev, ?_, ?_, ?_⟩
  · rw [h2]
    show (render name containerId canvasId ld (schedulingPlugin name)
        word w).1.pending.erase w.nextRaf ++
      [(render name containerId canvasId ld (schedulingPlugin name)
        word w).1.nextRaf] = _
    rw [h1pend, h1raf, List.erase_cons_head, List.nil_append]
  · refine ⟨R2.spread [("animationId", JVal.num (w.nextRaf + 1))],
      ?_, ?_⟩
    · rw [h2]
      show assocGet (assocSet _ name _) name = _
      rw [assocGet_assocSet, if_pos rfl, h1raf]
    · unfold JObj.getU
      rw [JObj.get_spread]
      rfl
  · rw [h2]
    show (render name containerId canvasId ld (schedulingPlugin name)
        word w).1.events ++ [.cancelFrame w.nextRaf,
          .requestFrame (render name containerId canvasId ld
            (schedulingPlugin name) word w).1.nextRaf] = _
    rw [h1ev, h1raf, List.append_assoc]
    rfl

/-- Witness for C2, at the `waveform` key itself right after its
registration (record: the initial literal, `animationId = null`;
template: `waveformStateTemplate`), rendering `"dog"` twice: the handle
pending after both calls is the second call's handle `2`, and the
second call cancelled handle `1` before requesting handle `2`. -/
theorem render_twice_single_handle_witness :
    (("dog" : String) ≠ "" ∧
      (assocGet (registerVisualizer "waveform" waveformOptions
        emptyWorld).dom "waveformContainer").isSome ∧
      (assocGet (registerVisualizer "waveform" waveformOptions
        emptyWorld).dom "waveform").isSome ∧
      assocGet (registerVisualizer "waveform" waveformOptions
        emptyWorld).store "waveform" = some waveformInitialState ∧
      (waveformInitialState.getU "animationId" = JVal.null) ∧
      assocGet (registerVisualizer "waveform" waveformOptions
        emptyWorld).templates "waveform" = some waveformStateTemplate ∧
      (registerVisualizer "waveform" waveformOptions
        emptyWorld).pending = [] ∧
      (1:ℚ) ≤ (registerVisualizer "waveform" waveformOptions
        emptyWorld).nextRaf) ∧
    (render "waveform" "waveformContainer" "waveform" (some 3)
        (schedulingPlugin "waveform") "dog"
        (render "waveform" "waveformContainer" "waveform" (some 3)
          (schedulingPlugin "waveform") "dog"
          (registerVisualizer "waveform" waveformOptions
            emptyWorld)).1).1.pending = [(1:ℚ) + 1] ∧
    (render "waveform" "waveformContainer" "waveform" (some 3)
        (schedulingPlugin "waveform") "dog"
        (render "waveform" "waveformContainer" "waveform" (some 3)
          (schedulingPlugin "waveform") "dog"
          (registerVisualizer "waveform" waveformOptions
            emptyWorld)).1).1.events =
      (registerVisualizer "waveform" waveformOptions emptyWorld).events
        ++ [.requestFrame 1, .cancelFrame 1,
             .requestFrame ((1:ℚ) + 1)] := by
  have hraf : (registerVisualizer "waveform" waveformOptions
      emptyWorld).nextRaf = 1 := by rfl
  have hbase := render_twice_single_handle "waveform"
    "waveformContainer" "waveform" "dog" (some 3)
    waveformStateTemplate waveformInitialState
    (registerVisualizer "waveform" waveformOptions emptyWorld)
    (by decide) (by rfl) (by rfl) (by rfl) (by rfl) (by rfl)
    (by rfl) (le_of_eq hraf.symm)
  refine ⟨⟨by decide, by rfl, by rfl, by rfl, by rfl, by rfl, by rfl,
    ?_⟩, ?_, ?_⟩
  · exact le_of_eq hraf.symm
  · have := hbase.2.2.1
    rw [hraf] at this
    exact this
  · have := hbase.2.2.2.2
    rw [hraf] at this
    exact this

end PhoneticViz
